import Mathlib

/-!
Verification of the decision-synthesis pipeline of the jusic repository:
news trend analyzer, risk score calculator, AI ensemble voter, target
price calculator and trading signal synthesizer.  Python floats are
embedded as rationals; Python `round(x, d)` (round half to even) is
modelled exactly on rationals; absent dictionary values are `Option`s.
-/

namespace Jusic

/-- Python `round` to an integer: round half to even, exact on rationals. -/
def pyRoundInt (q : ℚ) : ℤ :=
  let f := ⌊q⌋
  let r := q - (f : ℚ)
  if r < 1/2 then f
  else if 1/2 < r then f + 1
  else if Even f then f else f + 1

/-- Python `round(x, d)` for a nonnegative number of digits `d`. -/
def pyRound (d : ℕ) (q : ℚ) : ℚ := (pyRoundInt (q * 10 ^ d) : ℚ) / 10 ^ d

theorem pyRoundInt_le (q : ℚ) : (pyRoundInt q : ℚ) ≤ q + 1/2 := by
  have h0 : ((⌊q⌋ : ℤ) : ℚ) ≤ q := Int.floor_le q
  have h1 : q < (⌊q⌋ : ℤ) + 1 := Int.lt_floor_add_one q
  unfold pyRoundInt
  by_cases hlt : q - (⌊q⌋ : ℚ) < 1/2
  · simp only [hlt, if_true]
    linarith
  · simp only [hlt, if_false]
    by_cases hgt : (1:ℚ)/2 < q - (⌊q⌋ : ℚ)
    · simp only [hgt, if_true]
      push_cast
      linarith
    · simp only [hgt, if_false]
      by_cases he : Even ⌊q⌋
      · simp only [he, if_true]
        linarith
      · simp only [he, if_false]
        push_cast
        linarith

theorem le_pyRoundInt (q : ℚ) : q - 1/2 ≤ (pyRoundInt q : ℚ) := by
  have h0 : ((⌊q⌋ : ℤ) : ℚ) ≤ q := Int.floor_le q
  have h1 : q < (⌊q⌋ : ℤ) + 1 := Int.lt_floor_add_one q
  unfold pyRoundInt
  by_cases hlt : q - (⌊q⌋ : ℚ) < 1/2
  · simp only [hlt, if_true]
    linarith
  · simp only [hlt, if_false]
    by_cases hgt : (1:ℚ)/2 < q - (⌊q⌋ : ℚ)
    · simp only [hgt, if_true]
      push_cast
      linarith
    · simp only [hgt, if_false]
      by_cases he : Even ⌊q⌋
      · simp only [he, if_true]
        linarith
      · simp only [he, if_false]
        push_cast
        linarith

theorem pyRound_nonneg (d : ℕ) (q : ℚ) (h : 0 ≤ q) : 0 ≤ pyRound d q := by
  have hp : (0:ℚ) < 10 ^ d := by positivity
  have hb : q * 10 ^ d - 1/2 ≤ (pyRoundInt (q * 10 ^ d) : ℚ) :=
    le_pyRoundInt (q * 10 ^ d)
  have hq : (0:ℚ) ≤ q * 10 ^ d := by positivity
  have hz : (-1 : ℤ) < pyRoundInt (q * 10 ^ d) := by
    have : (-1 : ℚ) < (pyRoundInt (q * 10 ^ d) : ℚ) := by linarith
    exact_mod_cast this
  have hz0 : (0 : ℤ) ≤ pyRoundInt (q * 10 ^ d) := by omega
  have : (0:ℚ) ≤ (pyRoundInt (q * 10 ^ d) : ℚ) := by exact_mod_cast hz0
  unfold pyRound
  positivity

theorem pyRound_le (d : ℕ) (q : ℚ) (n : ℕ) (h : q ≤ n) : pyRound d q ≤ n := by
  have hp : (0:ℚ) < 10 ^ d := by positivity
  have hb : (pyRoundInt (q * 10 ^ d) : ℚ) ≤ q * 10 ^ d + 1/2 :=
    pyRoundInt_le (q * 10 ^ d)
  have hq : q * 10 ^ d ≤ (n : ℚ) * 10 ^ d := by
    exact mul_le_mul_of_nonneg_right h (le_of_lt hp)
  have hcast : ((n : ℤ) * (10 ^ d : ℤ) : ℚ) = (n : ℚ) * 10 ^ d := by push_cast; ring
  have hz : (pyRoundInt (q * 10 ^ d) : ℚ) < ((n : ℤ) * (10 ^ d : ℤ) : ℚ) + 1 := by
    rw [hcast]; linarith
  have hzi : pyRoundInt (q * 10 ^ d) < (n : ℤ) * (10 ^ d : ℤ) + 1 := by exact_mod_cast hz
  have hzi2 : pyRoundInt (q * 10 ^ d) ≤ (n : ℤ) * (10 ^ d : ℤ) := by omega
  have hfin : (pyRoundInt (q * 10 ^ d) : ℚ) ≤ (n : ℚ) * 10 ^ d := by
    rw [← hcast]; exact_mod_cast hzi2
  unfold pyRound
  rw [div_le_iff₀ hp]
  linarith

/-! ## Risk score calculator (`risk_score_calculator.py`) -/

/-- The keys of the news-trend dictionary read by
`calculate_news_sentiment_risk`.  An absent or empty dictionary is
modelled as `none` at the call sites. -/
structure NewsTrend where
  total_count : ℕ
  negative_ratio : ℚ
  avg_sentiment_score : ℚ
  recent_sentiment_change : String

/-- `calculate_news_sentiment_risk` (lines 16-48): news sentiment risk,
0-30 points; a missing or empty snapshot yields the fixed neutral 15. -/
def calculate_news_sentiment_risk (news_trend : Option NewsTrend) : ℚ :=
  match news_trend with
  | none => 15
  | some t =>
    if t.total_count = 0 then 15
    else
      let negative_score := t.negative_ratio / 100 * 15
      let sentiment_score := (1 - t.avg_sentiment_score) / 2 * 10
      let change_penalty : ℚ :=
        if t.recent_sentiment_change = "악화" then 5
        else if t.recent_sentiment_change = "불변" then 5/2
        else 0
      min 30 (max 0 (negative_score + sentiment_score + change_penalty))

/-- Volatility component 1 (lines 75-88): position of the current price
in the 52-week range.  The Python guard `if current_price and week52_high
and week52_low and week52_high > week52_low` treats `None` and `0` as
falsy, modelled by the `some`-and-nonzero conditions. -/
def volPositionScore (current_price week52_high week52_low : Option ℚ) : ℚ :=
  match current_price, week52_high, week52_low with
  | some cp, some hi, some lo =>
    if cp ≠ 0 ∧ hi ≠ 0 ∧ lo ≠ 0 ∧ lo < hi then
      let position_from_low := (cp - lo) / (hi - lo)
      if position_from_low > 9/10 then 10
      else if position_from_low < 1/10 then 10
      else if 2/5 ≤ position_from_low ∧ position_from_low ≤ 3/5 then 3
      else 6
    else 0
  | _, _, _ => 0

/-- Volatility component 2 (lines 90-99): volume surge. -/
def volVolumeScore (avg_volume current_volume : Option ℚ) : ℚ :=
  match avg_volume, current_volume with
  | some av, some cv =>
    if av ≠ 0 ∧ cv ≠ 0 then
      let volume_ratio := cv / av
      if volume_ratio ≥ 3 then 8
      else if volume_ratio ≥ 2 then 5
      else if volume_ratio ≥ 3/2 then 2
      else 0
    else 0
  | _, _ => 0

/-- Volatility component 3 (lines 101-107): Bollinger-band breach.
The argument is `some v` when the technical-indicator dictionary is
truthy and contains the key, whose value `v` may itself be `None`. -/
def volBollingerScore (bollinger_position : Option (Option String)) : ℚ :=
  match bollinger_position with
  | some (some bb) =>
    if bb = "above_upper" ∨ bb = "below_lower" then 7
    else if bb = "near_upper" ∨ bb = "near_lower" then 3
    else 0
  | _ => 0

/-- `calculate_volatility_risk` (lines 51-109): volatility risk, 0-25 points. -/
def calculate_volatility_risk (current_price week52_high week52_low : Option ℚ)
    (avg_volume current_volume : Option ℚ)
    (bollinger_position : Option (Option String)) : ℚ :=
  min 25 (max 0 (volPositionScore current_price week52_high week52_low
    + volVolumeScore avg_volume current_volume
    + volBollingerScore bollinger_position))

/-- `calculate_financial_risk` (lines 112-174): financial risk, 0-20
points.  The `pbr` argument is accepted but never used, as in the source. -/
def calculate_financial_risk (per pbr roe debt_ratio operating_margin : Option ℚ) : ℚ :=
  let s1 : ℚ :=
    match per with
    | none => 0
    | some p => if p < 0 then 5 else if p > 50 then 4 else if p > 30 then 2
                else if p < 5 then 1 else 0
  let s2 : ℚ :=
    match roe with
    | none => 0
    | some r => if r < 0 then 5 else if r < 5 then 3 else if r < 10 then 1 else 0
  let s3 : ℚ :=
    match debt_ratio with
    | none => 0
    | some d => if d > 200 then 6 else if d > 150 then 4 else if d > 100 then 2 else 0
  let s4 : ℚ :=
    match operating_margin with
    | none => 0
    | some m => if m < 0 then 4 else if m < 3 then 2 else if m < 5 then 1 else 0
  let _ := pbr
  min 20 (max 0 (s1 + s2 + s3 + s4))

/-- `calculate_market_risk` (lines 177-230): market risk, 0-15 points. -/
def calculate_market_risk (kospi_change sector_relative_strength
    foreign_ownership_change program_trading_net : Option ℚ) : ℚ :=
  let s1 : ℚ :=
    match kospi_change with
    | none => 0
    | some k => if k ≤ -3 then 6 else if k ≤ -2 then 4 else if k ≤ -1 then 2 else 0
  let s2 : ℚ :=
    match sector_relative_strength with
    | none => 0
    | some s => if s ≤ -3 then 5 else if s ≤ -2 then 3 else if s ≤ -1 then 1 else 0
  let s3 : ℚ :=
    match foreign_ownership_change with
    | none => 0
    | some f => if f < -1 then 2 else if f < -1/2 then 1 else 0
  let s4 : ℚ :=
    match program_trading_net with
    | none => 0
    | some p => if p < -500 then 2 else if p < -200 then 1 else 0
  min 15 (max 0 (s1 + s2 + s3 + s4))

/-- Liquidity component 1 (lines 253-259): relative volume decline; the
Python guard `if current_volume and avg_volume` treats `None` and `0` as
falsy. -/
def liqVolumeScore (current_volume avg_volume : Option ℚ) : ℚ :=
  match current_volume, avg_volume with
  | some cv, some av =>
    if cv ≠ 0 ∧ av ≠ 0 then
      let volume_ratio := cv / av
      if volume_ratio < 3/10 then 4
      else if volume_ratio < 1/2 then 2
      else 0
    else 0
  | _, _ => 0

/-- Liquidity component 2 (lines 261-268): market-cap size. -/
def liqCapScore (market_cap : Option ℚ) : ℚ :=
  match market_cap with
  | none => 0
  | some m => if m < 500 then 3 else if m < 1000 then 2 else if m < 3000 then 1 else 0

/-- Liquidity component 3 (lines 270-277): free-float ratio. -/
def liqFloatScore (free_float : Option ℚ) : ℚ :=
  match free_float with
  | none => 0
  | some f => if f < 20 then 3 else if f < 30 then 2 else if f < 40 then 1 else 0

/-- `calculate_liquidity_risk` (lines 233-279): liquidity risk, 0-10 points. -/
def calculate_liquidity_risk (current_volume avg_volume market_cap free_float : Option ℚ) : ℚ :=
  min 10 (max 0 (liqVolumeScore current_volume avg_volume
    + liqCapScore market_cap + liqFloatScore free_float))

/-- The keys `calculate_total_risk_score` reads from its `stock_info`
dictionary argument. -/
structure StockInfo where
  current_price : Option ℚ := none
  week52_high : Option ℚ := none
  week52_low : Option ℚ := none
  avg_volume : Option ℚ := none
  current_volume : Option ℚ := none
  bollinger_position : Option (Option String) := none
  per : Option ℚ := none
  pbr : Option ℚ := none
  roe : Option ℚ := none
  debt_ratio : Option ℚ := none
  operating_margin : Option ℚ := none
  market_cap : Option ℚ := none
  free_float : Option ℚ := none

/-- The keys `calculate_total_risk_score` reads from its `market_data`
dictionary argument. -/
structure MarketData where
  kospi_change : Option ℚ := none
  sector_relative_strength : Option ℚ := none
  foreign_ownership_change : Option ℚ := none
  program_trading_net : Option ℚ := none

/-- The returned risk-score dictionary, with the `breakdown` sub-dictionary
flattened into the five category fields.  The Korean `description` string
(a pure formatting helper) is not modelled. -/
structure RiskScoreResult where
  total_score : ℚ
  risk_level : String
  news_sentiment : ℚ
  volatility : ℚ
  financial : ℚ
  market : ℚ
  liquidity : ℚ

/-- The unrounded sum of the five category scores, as computed in
`calculate_total_risk_score` before `round(total_score, 2)`. -/
def totalRiskRaw (news_trend : Option NewsTrend) (stock_info : StockInfo)
    (market_data : MarketData) : ℚ :=
  calculate_news_sentiment_risk news_trend
  + calculate_volatility_risk stock_info.current_price stock_info.week52_high
      stock_info.week52_low stock_info.avg_volume stock_info.current_volume
      stock_info.bollinger_position
  + calculate_financial_risk stock_info.per stock_info.pbr stock_info.roe
      stock_info.debt_ratio stock_info.operating_margin
  + calculate_market_risk market_data.kospi_change
      market_data.sector_relative_strength market_data.foreign_ownership_change
      market_data.program_trading_net
  + calculate_liquidity_risk stock_info.current_volume stock_info.avg_volume
      stock_info.market_cap stock_info.free_float

/-- `calculate_total_risk_score` (lines 282-366): total 0-100 risk score
with level thresholds low (< 30), medium (< 60), high (otherwise); the
returned total and breakdown entries are rounded to two decimals, while
the level is decided on the unrounded total. -/
def calculate_total_risk_score (news_trend : Option NewsTrend)
    (stock_info : StockInfo) (market_data : MarketData) : RiskScoreResult :=
  let total_score := totalRiskRaw news_trend stock_info market_data
  let risk_level : String :=
    if total_score < 30 then "low"
    else if total_score < 60 then "medium"
    else "high"
  { total_score := pyRound 2 total_score
    risk_level := risk_level
    news_sentiment := pyRound 2 (calculate_news_sentiment_risk news_trend)
    volatility := pyRound 2 (calculate_volatility_risk stock_info.current_price
      stock_info.week52_high stock_info.week52_low stock_info.avg_volume
      stock_info.current_volume stock_info.bollinger_position)
    financial := pyRound 2 (calculate_financial_risk stock_info.per stock_info.pbr
      stock_info.roe stock_info.debt_ratio stock_info.operating_margin)
    market := pyRound 2 (calculate_market_risk market_data.kospi_change
      market_data.sector_relative_strength market_data.foreign_ownership_change
      market_data.program_trading_net)
    liquidity := pyRound 2 (calculate_liquidity_risk stock_info.current_volume
      stock_info.avg_volume stock_info.market_cap stock_info.free_float) }

/-! ## Bounds of the risk calculator -/

theorem clamp_lower (c t : ℚ) (hc : 0 ≤ c) : 0 ≤ min c (max 0 t) :=
  le_min hc (le_max_left 0 t)

theorem clamp_upper (c t : ℚ) : min c (max 0 t) ≤ c := min_le_left c (max 0 t)

theorem news_risk_bounds (nt : Option NewsTrend) :
    0 ≤ calculate_news_sentiment_risk nt ∧ calculate_news_sentiment_risk nt ≤ 30 := by
  unfold calculate_news_sentiment_risk
  match nt with
  | none => norm_num
  | some t =>
    by_cases h : t.total_count = 0
    · simp only [h, if_true]
      norm_num
    · simp only [h, if_false]
      exact ⟨clamp_lower 30 _ (by norm_num), clamp_upper 30 _⟩

theorem volatility_risk_bounds (a b c d e : Option ℚ) (f : Option (Option String)) :
    0 ≤ calculate_volatility_risk a b c d e f ∧ calculate_volatility_risk a b c d e f ≤ 25 := by
  unfold calculate_volatility_risk
  exact ⟨clamp_lower 25 _ (by norm_num), clamp_upper 25 _⟩

theorem financial_risk_bounds (a b c d e : Option ℚ) :
    0 ≤ calculate_financial_risk a b c d e ∧ calculate_financial_risk a b c d e ≤ 20 := by
  unfold calculate_financial_risk
  exact ⟨clamp_lower 20 _ (by norm_num), clamp_upper 20 _⟩

theorem market_risk_bounds (a b c d : Option ℚ) :
    0 ≤ calculate_market_risk a b c d ∧ calculate_market_risk a b c d ≤ 15 := by
  unfold calculate_market_risk
  exact ⟨clamp_lower 15 _ (by norm_num), clamp_upper 15 _⟩

theorem liquidity_risk_bounds (a b c d : Option ℚ) :
    0 ≤ calculate_liquidity_risk a b c d ∧ calculate_liquidity_risk a b c d ≤ 10 := by
  unfold calculate_liquidity_risk
  exact ⟨clamp_lower 10 _ (by norm_num), clamp_upper 10 _⟩

theorem totalRiskRaw_bounds (nt : Option NewsTrend) (si : StockInfo) (md : MarketData) :
    0 ≤ totalRiskRaw nt si md ∧ totalRiskRaw nt si md ≤ 100 := by
  obtain ⟨h1, h2⟩ := news_risk_bounds nt
  obtain ⟨h3, h4⟩ := volatility_risk_bounds si.current_price si.week52_high si.week52_low
    si.avg_volume si.current_volume si.bollinger_position
  obtain ⟨h5, h6⟩ := financial_risk_bounds si.per si.pbr si.roe si.debt_ratio si.operating_margin
  obtain ⟨h7, h8⟩ := market_risk_bounds md.kospi_change md.sector_relative_strength
    md.foreign_ownership_change md.program_trading_net
  obtain ⟨h9, h10⟩ := liquidity_risk_bounds si.current_volume si.avg_volume
    si.market_cap si.free_float
  unfold totalRiskRaw
  constructor <;> linarith

/-- Claim C1 (amended): every returned breakdown entry lies within its
declared cap, the returned total lies in [0, 100], and the risk level is
decided by the documented thresholds applied to the UNROUNDED total (the
returned `total_score` itself is that total rounded to two decimals, and
near a threshold the rounded value can sit on the other side of it). -/
theorem risk_score_caps_and_level (nt : Option NewsTrend) (si : StockInfo) (md : MarketData) :
    0 ≤ (calculate_total_risk_score nt si md).news_sentiment ∧
    (calculate_total_risk_score nt si md).news_sentiment ≤ 30 ∧
    0 ≤ (calculate_total_risk_score nt si md).volatility ∧
    (calculate_total_risk_score nt si md).volatility ≤ 25 ∧
    0 ≤ (calculate_total_risk_score nt si md).financial ∧
    (calculate_total_risk_score nt si md).financial ≤ 20 ∧
    0 ≤ (calculate_total_risk_score nt si md).market ∧
    (calculate_total_risk_score nt si md).market ≤ 15 ∧
    0 ≤ (calculate_total_risk_score nt si md).liquidity ∧
    (calculate_total_risk_score nt si md).liquidity ≤ 10 ∧
    0 ≤ (calculate_total_risk_score nt si md).total_score ∧
    (calculate_total_risk_score nt si md).total_score ≤ 100 ∧
    (calculate_total_risk_score nt si md).risk_level =
      (if totalRiskRaw nt si md < 30 then "low"
       else if totalRiskRaw nt si md < 60 then "medium" else "high") := by
  obtain ⟨h1, h2⟩ := news_risk_bounds nt
  obtain ⟨h3, h4⟩ := volatility_risk_bounds si.current_price si.week52_high si.week52_low
    si.avg_volume si.current_volume si.bollinger_position
  obtain ⟨h5, h6⟩ := financial_risk_bounds si.per si.pbr si.roe si.debt_ratio si.operating_margin
  obtain ⟨h7, h8⟩ := market_risk_bounds md.kospi_change md.sector_relative_strength
    md.foreign_ownership_change md.program_trading_net
  obtain ⟨h9, h10⟩ := liquidity_risk_bounds si.current_volume si.avg_volume
    si.market_cap si.free_float
  obtain ⟨ht1, ht2⟩ := totalRiskRaw_bounds nt si md
  refine ⟨?_, ?_, ?_, ?_, ?_, ?_, ?_, ?_, ?_, ?_, ?_, ?_, rfl⟩
  · exact pyRound_nonneg 2 _ h1
  · exact pyRound_le 2 _ 30 h2
  · exact pyRound_nonneg 2 _ h3
  · exact pyRound_le 2 _ 25 h4
  · exact pyRound_nonneg 2 _ h5
  · exact pyRound_le 2 _ 20 h6
  · exact pyRound_nonneg 2 _ h7
  · exact pyRound_le 2 _ 15 h8
  · exact pyRound_nonneg 2 _ h9
  · exact pyRound_le 2 _ 10 h10
  · exact pyRound_nonneg 2 _ ht1
  · exact pyRound_le 2 _ 100 ht2

/-- News input of the C1 counterexample: 40 percent negative news,
average sentiment -0.4995, unchanged recent sentiment. -/
def c1News : Option NewsTrend := some ⟨20, 40, -999/2000, "불변"⟩

/-- Stock input of the C1 counterexample: price at the 52-week high. -/
def c1Stock : StockInfo := { current_price := some 100, week52_high := some 100, week52_low := some 50 }

/-- Market input of the C1 counterexample: index down two percent. -/
def c1Market : MarketData := { kospi_change := some (-2) }

theorem c1News_risk : calculate_news_sentiment_risk c1News = 31995/2000 := by
  have h1 : ¬ (("불변" : String) = "악화") := by decide
  norm_num [c1News, calculate_news_sentiment_risk, min_def, max_def, h1]

theorem c1_raw_total : totalRiskRaw c1News c1Stock c1Market = 119990/4000 := by
  have hv : calculate_volatility_risk (some 100) (some 100) (some 50) none none none = 10 := by
    norm_num [calculate_volatility_risk, volPositionScore, volVolumeScore,
      volBollingerScore, min_def, max_def]
  have hf : calculate_financial_risk none none none none none = 0 := by
    norm_num [calculate_financial_risk, min_def, max_def]
  have hm : calculate_market_risk (some (-2)) none none none = 4 := by
    norm_num [calculate_market_risk, min_def, max_def]
  have hl : calculate_liquidity_risk none none none none = 0 := by
    norm_num [calculate_liquidity_risk, liqVolumeScore, liqCapScore, liqFloatScore,
      min_def, max_def]
  simp only [totalRiskRaw, c1Stock, c1Market]
  rw [c1News_risk, hv, hf, hm, hl]
  norm_num

/-- Claim C1 (counterexample): the unrounded total is 29.9975, so the
level is "low", yet the returned `total_score` rounds to exactly 30.0 -
contradicting the claimed reading that a returned totalScore of 30.0 is
always labelled "medium". -/
theorem risk_level_rounding_counterexample :
    (calculate_total_risk_score c1News c1Stock c1Market).total_score = 30 ∧
    (calculate_total_risk_score c1News c1Stock c1Market).risk_level = "low" := by
  constructor
  · show pyRound 2 (totalRiskRaw c1News c1Stock c1Market) = 30
    rw [c1_raw_total]
    norm_num [pyRound, pyRoundInt]
  · show (if totalRiskRaw c1News c1Stock c1Market < 30 then "low"
      else if totalRiskRaw c1News c1Stock c1Market < 60 then "medium" else "high") = "low"
    rw [c1_raw_total]
    norm_num

/-- Claim C6: for a snapshot with negativeRatio 40, avgSentiment -0.3,
recent change "worsened" and a nonzero news count, the news-sentiment
risk is exactly 17.5 = 6.0 + 6.5 + 5.0. -/
theorem news_sentiment_scenario_a :
    calculate_news_sentiment_risk (some ⟨20, 40, -3/10, "악화"⟩) = 35/2 := by
  norm_num [calculate_news_sentiment_risk, min_def, max_def]

/-- All-absent stock facts. -/
def emptyStockInfo : StockInfo := {}

/-- All-absent market facts. -/
def emptyMarketData : MarketData := {}

/-- Claim C7: with every financial, market and news input absent the
total risk score is exactly 15 (the fixed neutral news default) and the
level is "low"; in the embedding every calculator is a total function,
mirroring that the source never raises on missing optional data. -/
theorem risk_score_all_absent :
    (calculate_total_risk_score none emptyStockInfo emptyMarketData).total_score = 15 ∧
    (calculate_total_risk_score none emptyStockInfo emptyMarketData).risk_level = "low" ∧
    (calculate_total_risk_score none emptyStockInfo emptyMarketData).news_sentiment = 15 ∧
    (calculate_total_risk_score none emptyStockInfo emptyMarketData).volatility = 0 ∧
    (calculate_total_risk_score none emptyStockInfo emptyMarketData).financial = 0 ∧
    (calculate_total_risk_score none emptyStockInfo emptyMarketData).market = 0 ∧
    (calculate_total_risk_score none emptyStockInfo emptyMarketData).liquidity = 0 := by
  have hn : calculate_news_sentiment_risk none = 15 := by
    norm_num [calculate_news_sentiment_risk]
  have hv : calculate_volatility_risk none none none none none none = 0 := by
    norm_num [calculate_volatility_risk, volPositionScore, volVolumeScore,
      volBollingerScore, min_def, max_def]
  have hf : calculate_financial_risk none none none none none = 0 := by
    norm_num [calculate_financial_risk, min_def, max_def]
  have hm : calculate_market_risk none none none none = 0 := by
    norm_num [calculate_market_risk, min_def, max_def]
  have hl : calculate_liquidity_risk none none none none = 0 := by
    norm_num [calculate_liquidity_risk, liqVolumeScore, liqCapScore, liqFloatScore,
      min_def, max_def]
  have hraw : totalRiskRaw none emptyStockInfo emptyMarketData = 15 := by
    simp only [totalRiskRaw, emptyStockInfo, emptyMarketData]
    rw [hn, hv, hf, hm, hl]
    norm_num
  refine ⟨?_, ?_, ?_, ?_, ?_, ?_, ?_⟩
  · show pyRound 2 (totalRiskRaw none emptyStockInfo emptyMarketData) = 15
    rw [hraw]; norm_num [pyRound, pyRoundInt]
  · show (if totalRiskRaw none emptyStockInfo emptyMarketData < 30 then "low"
      else if totalRiskRaw none emptyStockInfo emptyMarketData < 60 then "medium" else "high") = "low"
    rw [hraw]; norm_num
  · show pyRound 2 (calculate_news_sentiment_risk none) = 15
    rw [hn]; norm_num [pyRound, pyRoundInt]
  · show pyRound 2 (calculate_volatility_risk _ _ _ _ _ _) = 0
    simp only [emptyStockInfo]
    rw [hv]; norm_num [pyRound, pyRoundInt]
  · show pyRound 2 (calculate_financial_risk _ _ _ _ _) = 0
    simp only [emptyStockInfo]
    rw [hf]; norm_num [pyRound, pyRoundInt]
  · show pyRound 2 (calculate_market_risk _ _ _ _) = 0
    simp only [emptyMarketData]
    rw [hm]; norm_num [pyRound, pyRoundInt]
  · show pyRound 2 (calculate_liquidity_risk _ _ _ _) = 0
    simp only [emptyStockInfo]
    rw [hl]; norm_num [pyRound, pyRoundInt]

/-! ## Trading signal synthesizer (`trading_signal_generator.py`) -/

/-- The local variables `action`, `strength` and `confidence` set by the
decision block of `synthesize_signals`, before the return-time rounding. -/
structure SignalDecision where
  action : String
  strength : String
  confidence : ℚ

/-- The final-decision block of `synthesize_signals`
(`trading_signal_generator.py` lines 434-454), as a function of the
weighted total score. -/
def signalDecision (total_score : ℚ) : SignalDecision :=
  if total_score ≥ 70 then ⟨"buy", "strong", min 95 total_score⟩
  else if total_score ≥ 55 then ⟨"buy", "moderate", total_score⟩
  else if total_score ≥ 45 then ⟨"hold", "neutral", 100 - |total_score - 50| * 2⟩
  else if total_score ≥ 30 then ⟨"sell", "moderate", 100 - total_score⟩
  else ⟨"sell", "strong", min 95 (100 - total_score)⟩

/-- Score assigned to the price-position attractiveness label
(`synthesize_signals` lines 399-408). -/
def attractivenessScore (attractiveness : String) : ℚ :=
  if attractiveness = "high" then 80
  else if attractiveness = "moderate" then 60
  else if attractiveness = "low" then 40
  else 20

/-- The weighted total of `synthesize_signals` (lines 396-432):
25% price position, 30% normalized technical score, 20% inverted risk,
15% market favorability, 10% AI signal strength. -/
def weightedTotal (attractiveness : String) (tech_score overall_risk
    market_score ai_strength : ℚ) : ℚ :=
  attractivenessScore attractiveness * (25/100)
  + (tech_score + 100) / 2 * (30/100)
  + (100 - overall_risk) * (20/100)
  + market_score * (15/100)
  + ai_strength * (10/100)

/-- The action, strength, confidence and total_score fields of the
dictionary returned by `synthesize_signals` (lines 491-499):
`confidence` and `total_score` are rounded to one decimal at return.
The `reasoning` string and the factor lists are not modelled (no claim
refers to them). -/
structure TradingSignalResult where
  action : String
  strength : String
  confidence : ℚ
  total_score : ℚ

/-- The returned fields of `synthesize_signals` as a function of the
weighted total: the decision block followed by the `round(..., 1)`
applied in the return dictionary (line 493-495). -/
def signalReturn (total_score : ℚ) : TradingSignalResult :=
  { action := (signalDecision total_score).action
    strength := (signalDecision total_score).strength
    confidence := pyRound 1 (signalDecision total_score).confidence
    total_score := pyRound 1 total_score }

/-- `synthesize_signals` (lines 386-499), restricted to the action,
strength, confidence and total_score it returns. -/
def synthesize_signals (attractiveness : String) (tech_score overall_risk
    market_score ai_strength : ℚ) : TradingSignalResult :=
  signalReturn (weightedTotal attractiveness tech_score overall_risk
    market_score ai_strength)

/-- Case analysis of the pre-rounding decision block: action and
strength follow the thresholds and the local `confidence` variable is
the total (buy) or 100 minus the total (sell), clamped to at most 95. -/
theorem signalDecision_cases (total : ℚ) :
    (70 ≤ total → signalDecision total = ⟨"buy", "strong", min 95 total⟩) ∧
    (55 ≤ total ∧ total < 70 → signalDecision total = ⟨"buy", "moderate", min 95 total⟩) ∧
    (45 ≤ total ∧ total < 55 →
      (signalDecision total).action = "hold" ∧ (signalDecision total).strength = "neutral") ∧
    (30 ≤ total ∧ total < 45 →
      signalDecision total = ⟨"sell", "moderate", min 95 (100 - total)⟩) ∧
    (total < 30 → signalDecision total = ⟨"sell", "strong", min 95 (100 - total)⟩) := by
  refine ⟨?_, ?_, ?_, ?_, ?_⟩
  · intro h
    rw [signalDecision, if_pos (by linarith : total ≥ 70)]
  · rintro ⟨h1, h2⟩
    rw [signalDecision, if_neg (by linarith : ¬ total ≥ 70), if_pos (by linarith : total ≥ 55)]
    have : min 95 total = total := min_eq_right (by linarith)
    rw [this]
  · rintro ⟨h1, h2⟩
    rw [signalDecision, if_neg (by linarith : ¬ total ≥ 70),
      if_neg (by linarith : ¬ total ≥ 55), if_pos (by linarith : total ≥ 45)]
    exact ⟨rfl, rfl⟩
  · rintro ⟨h1, h2⟩
    rw [signalDecision, if_neg (by linarith : ¬ total ≥ 70),
      if_neg (by linarith : ¬ total ≥ 55), if_neg (by linarith : ¬ total ≥ 45),
      if_pos (by linarith : total ≥ 30)]
    have : min 95 (100 - total) = 100 - total := min_eq_right (by linarith)
    rw [this]
  · intro h
    rw [signalDecision, if_neg (by linarith : ¬ total ≥ 70),
      if_neg (by linarith : ¬ total ≥ 55), if_neg (by linarith : ¬ total ≥ 45),
      if_neg (by linarith : ¬ total ≥ 30)]

/-- Case analysis of the returned fields as a function of the weighted
total: the decision-block values with the one-decimal rounding applied
to the returned confidence and total. -/
theorem signalReturn_cases (total : ℚ) :
    (70 ≤ total → signalReturn total
      = ⟨"buy", "strong", pyRound 1 (min 95 total), pyRound 1 total⟩) ∧
    (55 ≤ total ∧ total < 70 → signalReturn total
      = ⟨"buy", "moderate", pyRound 1 (min 95 total), pyRound 1 total⟩) ∧
    (45 ≤ total ∧ total < 55 →
      (signalReturn total).action = "hold" ∧ (signalReturn total).strength = "neutral") ∧
    (30 ≤ total ∧ total < 45 → signalReturn total
      = ⟨"sell", "moderate", pyRound 1 (min 95 (100 - total)), pyRound 1 total⟩) ∧
    (total < 30 → signalReturn total
      = ⟨"sell", "strong", pyRound 1 (min 95 (100 - total)), pyRound 1 total⟩) := by
  refine ⟨?_, ?_, ?_, ?_, ?_⟩
  · intro h
    rw [signalReturn, (signalDecision_cases total).1 h]
  · intro h
    rw [signalReturn, (signalDecision_cases total).2.1 h]
  · intro h
    exact ⟨((signalDecision_cases total).2.2.1 h).1, ((signalDecision_cases total).2.2.1 h).2⟩
  · intro h
    rw [signalReturn, (signalDecision_cases total).2.2.2.1 h]
  · intro h
    rw [signalReturn, (signalDecision_cases total).2.2.2.2 h]

/-- Claim C2 (amended): for every weighted total produced by the
synthesizer, the returned action and strength follow the documented
thresholds, and the RETURNED confidence is the total (buy) or 100 minus
the total (sell), clamped to at most 95 and then rounded to one decimal
at return; the returned total_score is the total rounded to one
decimal. -/
theorem signal_thresholds (attractiveness : String)
    (tech_score overall_risk market_score ai_strength total : ℚ)
    (htotal : total = weightedTotal attractiveness tech_score overall_risk
      market_score ai_strength) :
    (70 ≤ total → synthesize_signals attractiveness tech_score overall_risk
      market_score ai_strength
      = ⟨"buy", "strong", pyRound 1 (min 95 total), pyRound 1 total⟩) ∧
    (55 ≤ total ∧ total < 70 → synthesize_signals attractiveness tech_score
      overall_risk market_score ai_strength
      = ⟨"buy", "moderate", pyRound 1 (min 95 total), pyRound 1 total⟩) ∧
    (45 ≤ total ∧ total < 55 →
      (synthesize_signals attractiveness tech_score overall_risk market_score
        ai_strength).action = "hold" ∧
      (synthesize_signals attractiveness tech_score overall_risk market_score
        ai_strength).strength = "neutral") ∧
    (30 ≤ total ∧ total < 45 → synthesize_signals attractiveness tech_score
      overall_risk market_score ai_strength
      = ⟨"sell", "moderate", pyRound 1 (min 95 (100 - total)), pyRound 1 total⟩) ∧
    (total < 30 → synthesize_signals attractiveness tech_score overall_risk
      market_score ai_strength
      = ⟨"sell", "strong", pyRound 1 (min 95 (100 - total)), pyRound 1 total⟩) := by
  rw [synthesize_signals, ← htotal]
  exact signalReturn_cases total

/-- Witness for C2: concrete inputs whose weighted total is exactly 80,
in the buy/strong branch. -/
theorem signal_thresholds_witness :
    ((80 : ℚ) = weightedTotal "high" 100 0 40 40) ∧ ((70 : ℚ) ≤ 80) ∧
    synthesize_signals "high" 100 0 40 40
      = ⟨"buy", "strong", pyRound 1 (min 95 80), pyRound 1 80⟩ := by
  have hw : (80 : ℚ) = weightedTotal "high" 100 0 40 40 := by
    norm_num [weightedTotal, attractivenessScore]
  exact ⟨hw, by norm_num, (signal_thresholds "high" 100 0 40 40 80 hw).1 (by norm_num)⟩

/-- Claim C2 (counterexample): at the synthesizer inputs giving weighted
total 55.07 the returned confidence is the rounded 55.1, not the claimed
clamp value min(95, 55.07) = 55.07, because the source returns
`round(confidence, 1)`. -/
theorem signal_confidence_rounding_counterexample :
    weightedTotal "high" 0 0 0 (7/10) = 5507/100 ∧
    (synthesize_signals "high" 0 0 0 (7/10)).action = "buy" ∧
    (synthesize_signals "high" 0 0 0 (7/10)).strength = "moderate" ∧
    (synthesize_signals "high" 0 0 0 (7/10)).confidence = 551/10 ∧
    ¬ ((551/10 : ℚ) = min 95 (5507/100)) := by
  have hw : weightedTotal "high" 0 0 0 (7/10) = 5507/100 := by
    norm_num [weightedTotal, attractivenessScore]
  have hdec : signalDecision (5507/100) = ⟨"buy", "moderate", 5507/100⟩ := by
    rw [signalDecision, if_neg (by norm_num : ¬ (5507/100 : ℚ) ≥ 70),
      if_pos (by norm_num : (5507/100 : ℚ) ≥ 55)]
  have hmin : min (95 : ℚ) (5507/100) = 5507/100 := min_eq_right (by norm_num)
  refine ⟨hw, ?_, ?_, ?_, ?_⟩
  · show (signalDecision (weightedTotal "high" 0 0 0 (7/10))).action = "buy"
    rw [hw, hdec]
  · show (signalDecision (weightedTotal "high" 0 0 0 (7/10))).strength = "moderate"
    rw [hw, hdec]
  · show pyRound 1 (signalDecision (weightedTotal "high" 0 0 0 (7/10))).confidence = 551/10
    rw [hw, hdec]
    norm_num [pyRound, pyRoundInt]
  · rw [hmin]
    norm_num

/-! ## Target price calculator (`target_price_calculator.py`) -/

/-- A conservative/neutral/aggressive triple of method target prices. -/
structure TripleQ where
  conservative : ℚ
  neutral : ℚ
  aggressive : ℚ

/-- The all-zero triple returned when a valuation method has no data. -/
def zeroTriple : TripleQ := ⟨0, 0, 0⟩

/-- The keys read from the `financial_data` dictionary; an absent
dictionary behaves as the all-`none` record (`financial_data or {}`). -/
structure FinDataTP where
  per : Option ℚ := none
  eps : Option ℚ := none
  pbr : Option ℚ := none
  bps : Option ℚ := none

/-- The key read from the `sector_relative` dictionary. -/
structure SectorRelative where
  relative_strength : Option ℚ := none

/-- The keys read from the `price_data` dictionary. -/
structure PriceDataTP where
  week52_high : Option ℚ := none
  week52_low : Option ℚ := none

/-- The key read from the `analyst_opinion` dictionary. -/
structure AnalystOpinion where
  avg_target_price : Option ℚ := none

/-- The keys read from the `market_context` dictionary. -/
structure MarketContext where
  market_trend : Option String := none
  market_strength : Option ℚ := none
  volatility_level : Option String := none

/-- `calculate_per_based_target` (lines 103-132). -/
def calculate_per_based_target (current_price : ℚ) (fd : FinDataTP)
    (sr : SectorRelative) : TripleQ :=
  let per := fd.per.getD 0
  let eps := fd.eps.getD 0
  if per ≤ 0 ∨ eps ≤ 0 then zeroTriple
  else
    let relative_strength := sr.relative_strength.getD 1
    let adjustment := 1 + (relative_strength - 1) * (3/10)
    let _ := current_price
    ⟨eps * per * (9/10) * adjustment, eps * per * 1 * adjustment,
      eps * per * (12/10) * adjustment⟩

/-- `calculate_pbr_based_target` (lines 135-159). -/
def calculate_pbr_based_target (current_price : ℚ) (fd : FinDataTP) : TripleQ :=
  let pbr := fd.pbr.getD 0
  let bps := fd.bps.getD 0
  let _ := current_price
  if pbr ≤ 0 ∨ bps ≤ 0 then zeroTriple
  else ⟨bps * pbr * (85/100), bps * pbr * 1, bps * pbr * (115/100)⟩

/-- `calculate_technical_target` (lines 162-186). -/
def calculate_technical_target (current_price : ℚ) (pd : PriceDataTP) : TripleQ :=
  let week52_high := pd.week52_high.getD 0
  let week52_low := pd.week52_low.getD 0
  if week52_high ≤ 0 ∨ week52_low ≤ 0 then zeroTriple
  else ⟨current_price + (week52_high - current_price) * (3/10),
    current_price + (week52_high - current_price) * (5/10),
    week52_high * (105/100)⟩

/-- `calculate_market_adjustment` (lines 189-222): adjustment factor
clamped to [0.9, 1.1]. -/
def calculate_market_adjustment (mc : MarketContext) : ℚ :=
  let market_trend := mc.market_trend.getD "neutral"
  let market_strength := mc.market_strength.getD 50
  let volatility_level := mc.volatility_level.getD "medium"
  let adjustment := 1
    + (if market_trend = "bullish" then (5:ℚ)/100
       else if market_trend = "bearish" then -(5:ℚ)/100 else 0)
    + (market_strength - 50) / 1000
    + (if volatility_level = "high" then -(3:ℚ)/100
       else if volatility_level = "low" then (2:ℚ)/100 else 0)
  max (9/10) (min (11/10) adjustment)

/-- Weighted average of a (target, weight) list, as in the Python
`sum(t * w ...) / sum(weights)`. -/
def weightedAvg (tw : List (ℚ × ℚ)) : ℚ :=
  (tw.map fun p => p.1 * p.2).sum / (tw.map Prod.snd).sum

/-- The (target, weight) list built by `calculate_conservative_target`
(lines 234-256). -/
def consTargetList (perT pbrT techT : TripleQ) (analyst_target : ℚ) : List (ℚ × ℚ) :=
  (if perT.conservative > 0 then [(perT.conservative, 30/100)] else [])
  ++ (if pbrT.conservative > 0 then [(pbrT.conservative, 25/100)] else [])
  ++ (if techT.conservative > 0 then [(techT.conservative, 20/100)] else [])
  ++ (if analyst_target > 0 then [(analyst_target * (9/10), 25/100)] else [])

/-- `calculate_conservative_target` (lines 225-267). -/
def calculate_conservative_target (current_price : ℚ) (perT pbrT techT : TripleQ)
    (analyst_target market_adjustment : ℚ) : ℚ :=
  let tw := consTargetList perT pbrT techT analyst_target
  if tw = [] then current_price * (105/100)
  else max (weightedAvg tw * market_adjustment) (current_price * (95/100))

/-- The (target, weight) list built by `calculate_neutral_target`
(lines 279-300). -/
def neutralTargetList (perT pbrT techT : TripleQ) (analyst_target : ℚ) : List (ℚ × ℚ) :=
  (if perT.neutral > 0 then [(perT.neutral, 30/100)] else [])
  ++ (if pbrT.neutral > 0 then [(pbrT.neutral, 25/100)] else [])
  ++ (if techT.neutral > 0 then [(techT.neutral, 20/100)] else [])
  ++ (if analyst_target > 0 then [(analyst_target, 25/100)] else [])

/-- `calculate_neutral_target` (lines 270-310). -/
def calculate_neutral_target (current_price : ℚ) (perT pbrT techT : TripleQ)
    (analyst_target market_adjustment : ℚ) : ℚ :=
  let tw := neutralTargetList perT pbrT techT analyst_target
  if tw = [] then current_price * (110/100)
  else max (weightedAvg tw * market_adjustment) current_price

/-- The (target, weight) list built by `calculate_aggressive_target`
(lines 322-344). -/
def aggrTargetList (perT pbrT techT : TripleQ) (analyst_target : ℚ) : List (ℚ × ℚ) :=
  (if perT.aggressive > 0 then [(perT.aggressive, 35/100)] else [])
  ++ (if pbrT.aggressive > 0 then [(pbrT.aggressive, 20/100)] else [])
  ++ (if techT.aggressive > 0 then [(techT.aggressive, 25/100)] else [])
  ++ (if analyst_target > 0 then [(analyst_target * (11/10), 20/100)] else [])

/-- `calculate_aggressive_target` (lines 313-354). -/
def calculate_aggressive_target (current_price : ℚ) (perT pbrT techT : TripleQ)
    (analyst_target market_adjustment : ℚ) : ℚ :=
  let tw := aggrTargetList perT pbrT techT analyst_target
  if tw = [] then current_price * (120/100)
  else max (weightedAvg tw * market_adjustment) (current_price * (105/100))

/-- The unrounded conservative scenario value inside
`calculate_target_prices`. -/
def conservativeRaw (cp : ℚ) (fd : FinDataTP) (ao : AnalystOpinion)
    (pd : PriceDataTP) (sr : SectorRelative) (mc : MarketContext) : ℚ :=
  calculate_conservative_target cp (calculate_per_based_target cp fd sr)
    (calculate_pbr_based_target cp fd) (calculate_technical_target cp pd)
    (ao.avg_target_price.getD 0) (calculate_market_adjustment mc)

/-- The unrounded neutral scenario value inside `calculate_target_prices`. -/
def neutralRaw (cp : ℚ) (fd : FinDataTP) (ao : AnalystOpinion)
    (pd : PriceDataTP) (sr : SectorRelative) (mc : MarketContext) : ℚ :=
  calculate_neutral_target cp (calculate_per_based_target cp fd sr)
    (calculate_pbr_based_target cp fd) (calculate_technical_target cp pd)
    (ao.avg_target_price.getD 0) (calculate_market_adjustment mc)

/-- The unrounded aggressive scenario value inside
`calculate_target_prices`. -/
def aggressiveRaw (cp : ℚ) (fd : FinDataTP) (ao : AnalystOpinion)
    (pd : PriceDataTP) (sr : SectorRelative) (mc : MarketContext) : ℚ :=
  calculate_aggressive_target cp (calculate_per_based_target cp fd sr)
    (calculate_pbr_based_target cp fd) (calculate_technical_target cp pd)
    (ao.avg_target_price.getD 0) (calculate_market_adjustment mc)

/-- The fields of the dictionary returned by `calculate_target_prices`;
the `methods` sub-dictionary of raw per-method values is not modelled
(no claim refers to it). -/
structure TargetPriceResult where
  conservative : Option ℚ
  neutral : Option ℚ
  aggressive : Option ℚ
  current_price : ℚ
  upside_conservative : ℚ
  upside_neutral : ℚ
  upside_aggressive : ℚ
  market_adjustment_factor : ℚ

/-- `calculate_target_prices` (lines 8-100): scenario values are rounded
to zero decimals and replaced by `None` when not positive. -/
def calculate_target_prices (cp : ℚ) (fd : FinDataTP) (ao : AnalystOpinion)
    (pd : PriceDataTP) (sr : SectorRelative) (mc : MarketContext) : TargetPriceResult :=
  let c := conservativeRaw cp fd ao pd sr mc
  let n := neutralRaw cp fd ao pd sr mc
  let a := aggressiveRaw cp fd ao pd sr mc
  { conservative := if c > 0 then some (pyRound 0 c) else none
    neutral := if n > 0 then some (pyRound 0 n) else none
    aggressive := if a > 0 then some (pyRound 0 a) else none
    current_price := pyRound 0 cp
    upside_conservative := if c > 0 then pyRound 2 ((c / cp - 1) * 100) else 0
    upside_neutral := if n > 0 then pyRound 2 ((n / cp - 1) * 100) else 0
    upside_aggressive := if a > 0 then pyRound 2 ((a / cp - 1) * 100) else 0
    market_adjustment_factor := pyRound 2 (calculate_market_adjustment mc) }

theorem madj_empty : calculate_market_adjustment {} = 1 := by
  have h1 : ¬(("neutral" : String) = "bullish") := by decide
  have h2 : ¬(("neutral" : String) = "bearish") := by decide
  have h3 : ¬(("medium" : String) = "high") := by decide
  have h4 : ¬(("medium" : String) = "low") := by decide
  norm_num [calculate_market_adjustment, min_def, max_def, h1, h2, h3, h4]

theorem per_target_empty (cp : ℚ) : calculate_per_based_target cp {} {} = zeroTriple := by
  norm_num [calculate_per_based_target]

theorem pbr_target_empty (cp : ℚ) : calculate_pbr_based_target cp {} = zeroTriple := by
  norm_num [calculate_pbr_based_target]

theorem technical_target_empty (cp : ℚ) : calculate_technical_target cp {} = zeroTriple := by
  norm_num [calculate_technical_target]

theorem conservative_floor (cp : ℚ) (hcp : 0 < cp) (perT pbrT techT : TripleQ)
    (an madj : ℚ) : cp * (95/100) ≤ calculate_conservative_target cp perT pbrT techT an madj := by
  unfold calculate_conservative_target
  by_cases h : consTargetList perT pbrT techT an = []
  · rw [if_pos h]; linarith
  · rw [if_neg h]; exact le_max_right _ _

theorem neutral_floor (cp : ℚ) (hcp : 0 < cp) (perT pbrT techT : TripleQ)
    (an madj : ℚ) : cp ≤ calculate_neutral_target cp perT pbrT techT an madj := by
  unfold calculate_neutral_target
  by_cases h : neutralTargetList perT pbrT techT an = []
  · rw [if_pos h]; linarith
  · rw [if_neg h]; exact le_max_right _ _

theorem aggressive_floor (cp : ℚ) (hcp : 0 < cp) (perT pbrT techT : TripleQ)
    (an madj : ℚ) : cp * (105/100) ≤ calculate_aggressive_target cp perT pbrT techT an madj := by
  unfold calculate_aggressive_target
  by_cases h : aggrTargetList perT pbrT techT an = []
  · rw [if_pos h]; linarith
  · rw [if_neg h]; exact le_max_right _ _

/-- Claim C3 (amended): for positive currentPrice the UNROUNDED scenario
values respect the floors (conservative at 0.95x, neutral at 1.0x,
aggressive at 1.05x the current price), the returned fields are exactly
those values rounded to zero decimals, and with no valuation-method data
the unrounded values are exactly 1.05x, 1.10x and 1.20x the current
price.  (The returned rounded integers may fall below the floor and off
the exact multiple by less than one unit.) -/
theorem target_price_floors (cp : ℚ) (hcp : 0 < cp) (perT pbrT techT : TripleQ)
    (an madj : ℚ) (fd : FinDataTP) (ao : AnalystOpinion) (pd : PriceDataTP)
    (sr : SectorRelative) (mc : MarketContext) :
    cp * (95/100) ≤ calculate_conservative_target cp perT pbrT techT an madj ∧
    cp ≤ calculate_neutral_target cp perT pbrT techT an madj ∧
    cp * (105/100) ≤ calculate_aggressive_target cp perT pbrT techT an madj ∧
    (calculate_target_prices cp fd ao pd sr mc).conservative
      = some (pyRound 0 (conservativeRaw cp fd ao pd sr mc)) ∧
    (calculate_target_prices cp fd ao pd sr mc).neutral
      = some (pyRound 0 (neutralRaw cp fd ao pd sr mc)) ∧
    (calculate_target_prices cp fd ao pd sr mc).aggressive
      = some (pyRound 0 (aggressiveRaw cp fd ao pd sr mc)) ∧
    conservativeRaw cp {} {} {} {} {} = cp * (105/100) ∧
    neutralRaw cp {} {} {} {} {} = cp * (110/100) ∧
    aggressiveRaw cp {} {} {} {} {} = cp * (120/100) := by
  have hc : cp * (95/100) ≤ conservativeRaw cp fd ao pd sr mc :=
    conservative_floor cp hcp _ _ _ _ _
  have hn : cp ≤ neutralRaw cp fd ao pd sr mc := neutral_floor cp hcp _ _ _ _ _
  have ha : cp * (105/100) ≤ aggressiveRaw cp fd ao pd sr mc :=
    aggressive_floor cp hcp _ _ _ _ _
  refine ⟨conservative_floor cp hcp perT pbrT techT an madj,
    neutral_floor cp hcp perT pbrT techT an madj,
    aggressive_floor cp hcp perT pbrT techT an madj, ?_, ?_, ?_, ?_, ?_, ?_⟩
  · show (if conservativeRaw cp fd ao pd sr mc > 0
        then some (pyRound 0 (conservativeRaw cp fd ao pd sr mc)) else none) = _
    rw [if_pos (by linarith)]
  · show (if neutralRaw cp fd ao pd sr mc > 0
        then some (pyRound 0 (neutralRaw cp fd ao pd sr mc)) else none) = _
    rw [if_pos (by linarith)]
  · show (if aggressiveRaw cp fd ao pd sr mc > 0
        then some (pyRound 0 (aggressiveRaw cp fd ao pd sr mc)) else none) = _
    rw [if_pos (by linarith)]
  · rw [conservativeRaw, madj_empty, per_target_empty, pbr_target_empty, technical_target_empty]
    norm_num [calculate_conservative_target, consTargetList, zeroTriple]
  · rw [neutralRaw, madj_empty, per_target_empty, pbr_target_empty, technical_target_empty]
    norm_num [calculate_neutral_target, neutralTargetList, zeroTriple]
  · rw [aggressiveRaw, madj_empty, per_target_empty, pbr_target_empty, technical_target_empty]
    norm_num [calculate_aggressive_target, aggrTargetList, zeroTriple]

/-- Witness for C3 at currentPrice 2 with all optional inputs absent. -/
theorem target_price_floors_witness :
    (0 : ℚ) < 2 ∧
    (2 : ℚ) * (95/100) ≤ calculate_conservative_target 2 zeroTriple zeroTriple zeroTriple 0 1 :=
  ⟨by norm_num,
    (target_price_floors 2 (by norm_num) zeroTriple zeroTriple zeroTriple 0 1
      {} {} {} {} {}).1⟩

/-- Claim C3 (counterexample): with currentPrice 3.3 and no other data
the returned conservative target is the rounded integer 3, which is
below the claimed floor 0.95 x 3.3 = 3.135 and is not the claimed exact
value 1.05 x 3.3 = 3.465. -/
theorem target_price_rounding_counterexample :
    (calculate_target_prices (33/10) {} {} {} {} {}).conservative = some 3 ∧
    (3 : ℚ) < (33/10) * (95/100) ∧ (3 : ℚ) ≠ (33/10) * (105/100) := by
  have hraw : conservativeRaw (33/10) {} {} {} {} {} = 3465/1000 := by
    rw [conservativeRaw, madj_empty, per_target_empty, pbr_target_empty, technical_target_empty]
    norm_num [calculate_conservative_target, consTargetList, zeroTriple]
  refine ⟨?_, by norm_num, by norm_num⟩
  show (if conservativeRaw (33/10) {} {} {} {} {} > 0
      then some (pyRound 0 (conservativeRaw (33/10) {} {} {} {} {})) else none) = some 3
  rw [hraw]
  norm_num [pyRound, pyRoundInt]

/-! ## AI ensemble voter (`ai_ensemble.py`) -/

/-- The fields of a per-model analysis result read by the ensemble; the
Python `r.get("risk_score", 50)` default is modelled by an option. -/
structure ModelResult where
  model : String
  summary : String
  recommendation : String
  risk_level : String
  evaluation_score : ℚ
  risk_score : Option ℚ := none

/-- The fixed per-model weight table of `ensemble_vote` (line 861):
`{"gpt-4-turbo": 0.6, "claude-3.5-sonnet": 0.4}` with 0.5 for unknown
model ids. -/
def modelWeight (m : String) : ℚ :=
  if m = "gpt-4-turbo" then 6/10
  else if m = "claude-3.5-sonnet" then 4/10
  else 1/2

/-- Distinct elements in first-occurrence order.  This models the
iteration order of the Python counting dictionary; CPython iterates a
`set` in an unspecified order, so plurality ties (flagged as an open
design choice in the spec) are settled here by first occurrence, and no
claim below depends on a tie. -/
def dedupFirst : List String → List String
  | [] => []
  | a :: l => a :: (dedupFirst l).filter (fun x => x ≠ a)

/-- `max(counts, key=counts.get)`: the first candidate with the maximal
number of occurrences in `l`. -/
def argmaxCount (l : List String) : String :=
  match dedupFirst l with
  | [] => ""
  | c :: cs => cs.foldl (fun best x => if l.count x > l.count best then x else best) c

/-- The weighted mean evaluation score of `ensemble_vote` (lines 861-868),
normalized by the sum of the applied weights. -/
def weightedEvalScore (results : List ModelResult) : ℚ :=
  (results.map (fun r => r.evaluation_score * modelWeight r.model)).sum
    / (results.map (fun r => modelWeight r.model)).sum

/-- Recommendation agreement percentage (line 872). -/
def recAgreement (results : List ModelResult) : ℚ :=
  let recs := results.map (fun r => r.recommendation)
  ((recs.count (argmaxCount recs) : ℚ) / results.length) * 100

/-- Risk-level agreement percentage (line 879). -/
def riskAgreement (results : List ModelResult) : ℚ :=
  let risks := results.map (fun r => r.risk_level)
  ((risks.count (argmaxCount risks) : ℚ) / results.length) * 100

/-- Unweighted mean of the per-model risk scores (line 935). -/
def meanRiskScore (results : List ModelResult) : ℚ :=
  (results.map (fun r => r.risk_score.getD 50)).sum / results.length

/-- The joined summary string (lines 913-918). -/
def ensembleSummary (results : List ModelResult) : String :=
  String.intercalate "\n\n" (results.map (fun r => "[" ++ r.model ++ "] " ++ r.summary))

/-- The ensemble-result fields needed by the claims.  `confidence_score`
is an option: on the N>=2 vote path the source computes it from
`np.std`, a real square root that has no exact rational embedding, and
no claim refers to its value there, so that path leaves it `none`; the
`error` field is `none` where the Python dictionary lacks the key.  The
`model_agreement` map and the remaining `ensemble_metadata` entries are
not modelled (no claim refers to them). -/
structure EnsembleOutput where
  summary : String
  risk_level : String
  recommendation : String
  evaluation_score : ℚ
  confidence_score : Option ℚ
  risk_score : Option ℚ
  error : Option String
  rec_agreement_pct : Option ℚ
  risk_agreement_pct : Option ℚ

/-- The nonempty branch of `ensemble_vote` (lines 851-981). -/
def voteBody (results : List ModelResult) : EnsembleOutput :=
  { summary := ensembleSummary results
    risk_level := argmaxCount (results.map (fun r => r.risk_level))
    recommendation := argmaxCount (results.map (fun r => r.recommendation))
    evaluation_score := pyRound 2 (weightedEvalScore results)
    confidence_score := none
    risk_score := some (pyRound 2 (meanRiskScore results))
    error := none
    rec_agreement_pct := some (pyRound 2 (recAgreement results))
    risk_agreement_pct := some (pyRound 2 (riskAgreement results)) }

/-- `ensemble_vote` (lines 825-981): the empty-input sentinel (lines
841-849) carries no `error` key. -/
def ensemble_vote (results : List ModelResult) : EnsembleOutput :=
  match results with
  | [] => ⟨"AI 분석 결과 없음", "medium", "hold", 50, some 0, none, none, none, none⟩
  | _ => voteBody results

/-- The fan-in logic of `analyze_with_ensemble` (lines 1055-1110) on the
list of results of the models that succeeded: all-failed fallback with
`error` = "All AI models failed", single-model passthrough with
confidence fixed at 50, otherwise the ensemble vote. -/
def analyze_with_ensemble_core (symbol_name : String)
    (valid_results : List ModelResult) : EnsembleOutput :=
  match valid_results with
  | [] => ⟨symbol_name ++ " 종목에 대한 AI 분석을 수행할 수 없습니다. 모든 모델에서 오류가 발생했습니다.",
      "medium", "hold", 50, some 0, none, some "All AI models failed", none, none⟩
  | [r] => ⟨r.summary, r.risk_level, r.recommendation, r.evaluation_score,
      some 50, none, none, none, none⟩
  | _ :: _ :: _ => ensemble_vote valid_results

/-- Claim C4 (counterexample): with zero model results the error field
reads "All AI models failed", not the claimed "no model succeeded", and
the vote function's own empty-input sentinel has no error field at all. -/
theorem ensemble_sentinel_error_counterexample :
    (analyze_with_ensemble_core "테스트" []).error = some "All AI models failed" ∧
    ¬ ((analyze_with_ensemble_core "테스트" []).error = some "no model succeeded") ∧
    (ensemble_vote []).error = none := by
  refine ⟨rfl, ?_, rfl⟩
  intro h
  exact absurd (Option.some.inj h) (by decide)

/-- Claim C4 (amended): with zero model results both the fan-in fallback
and the vote sentinel return hold / medium / 50 / confidence 0 as
well-formed objects (total functions, no exception); the fallback's
error field reads "All AI models failed", while the vote sentinel
carries no error field. -/
theorem ensemble_zero_models_sentinel (symbol_name : String) :
    (analyze_with_ensemble_core symbol_name []).recommendation = "hold" ∧
    (analyze_with_ensemble_core symbol_name []).risk_level = "medium" ∧
    (analyze_with_ensemble_core symbol_name []).evaluation_score = 50 ∧
    (analyze_with_ensemble_core symbol_name []).confidence_score = some 0 ∧
    (analyze_with_ensemble_core symbol_name []).error = some "All AI models failed" ∧
    (ensemble_vote []).recommendation = "hold" ∧
    (ensemble_vote []).risk_level = "medium" ∧
    (ensemble_vote []).evaluation_score = 50 ∧
    (ensemble_vote []).confidence_score = some 0 ∧
    (ensemble_vote []).error = none :=
  ⟨rfl, rfl, rfl, rfl, rfl, rfl, rfl, rfl, rfl, rfl⟩

/-- Claim C5: with exactly one model result the ensemble passes the
model's recommendation, risk level and evaluation score through
unchanged and fixes the confidence score at exactly 50. -/
theorem ensemble_single_model_passthrough (symbol_name : String) (r : ModelResult) :
    (analyze_with_ensemble_core symbol_name [r]).recommendation = r.recommendation ∧
    (analyze_with_ensemble_core symbol_name [r]).risk_level = r.risk_level ∧
    (analyze_with_ensemble_core symbol_name [r]).evaluation_score = r.evaluation_score ∧
    (analyze_with_ensemble_core symbol_name [r]).confidence_score = some 50 :=
  ⟨rfl, rfl, rfl, rfl⟩

/-- First model result of the C8 scenario. -/
def mr1 : ModelResult :=
  { model := "gpt-4-turbo"
    summary := "s1"
    recommendation := "buy"
    risk_level := "low"
    evaluation_score := 80
    risk_score := some 40 }

/-- Second model result of the C8 scenario. -/
def mr2 : ModelResult :=
  { model := "claude-3.5-sonnet"
    summary := "s2"
    recommendation := "buy"
    risk_level := "medium"
    evaluation_score := 70
    risk_score := some 60 }

/-- Claim C8: for two buy results scored 80 and 70 under the fixed
weights 0.6 and 0.4 the ensemble evaluation score is exactly 76, the
recommendation is "buy" and the recommendation agreement is 100 percent;
the weight table maps gpt-4-turbo to 0.6, claude-3.5-sonnet to 0.4 and
any unknown id to 0.5. -/
theorem ensemble_weighted_vote_scenario_b :
    (ensemble_vote [mr1, mr2]).evaluation_score = 76 ∧
    (ensemble_vote [mr1, mr2]).recommendation = "buy" ∧
    (ensemble_vote [mr1, mr2]).rec_agreement_pct = some 100 ∧
    modelWeight "gpt-4-turbo" = 6/10 ∧
    modelWeight "claude-3.5-sonnet" = 4/10 ∧
    modelWeight "some-other-model" = 1/2 := by
  have hw1 : modelWeight "gpt-4-turbo" = 6/10 := by
    norm_num [modelWeight]
  have hw2 : modelWeight "claude-3.5-sonnet" = 4/10 := by
    have hne : ¬(("claude-3.5-sonnet" : String) = "gpt-4-turbo") := by decide
    norm_num [modelWeight, hne]
  have hrec : argmaxCount [mr1.recommendation, mr2.recommendation] = "buy" := by decide
  have heval : weightedEvalScore [mr1, mr2] = 76 := by
    simp only [weightedEvalScore, List.map_cons, List.map_nil, List.sum_cons,
      List.sum_nil, mr1, mr2]
    rw [hw1, hw2]
    norm_num
  have hagree : recAgreement [mr1, mr2] = 100 := by
    simp only [recAgreement, List.map_cons, List.map_nil]
    rw [show ([mr1.recommendation, mr2.recommendation]) = ["buy", "buy"] from by decide]
    rw [show argmaxCount ["buy", "buy"] = "buy" from by decide]
    rw [show (["buy", "buy"].count "buy") = 2 from by decide]
    norm_num
  refine ⟨?_, ?_, ?_, hw1, hw2, ?_⟩
  · show pyRound 2 (weightedEvalScore [mr1, mr2]) = 76
    rw [heval]
    norm_num [pyRound, pyRoundInt]
  · show argmaxCount ([mr1, mr2].map (fun r => r.recommendation)) = "buy"
    simpa using hrec
  · show some (pyRound 2 (recAgreement [mr1, mr2])) = some 100
    rw [hagree]
    norm_num [pyRound, pyRoundInt]
  · have hne1 : ¬(("some-other-model" : String) = "gpt-4-turbo") := by decide
    have hne2 : ¬(("some-other-model" : String) = "claude-3.5-sonnet") := by decide
    norm_num [modelWeight, hne1, hne2]

/-! ## News trend analyzer (`analyze_news_trend`, `ai_ensemble.py` lines 57-156) -/

/-- A news item as read by the analyzer; the Python `n.get(..., 0)`
defaults are folded into always-present fields. -/
structure NewsItem where
  title : String
  sentiment_score : ℚ
  impact_score : ℚ

/-- Python `str.isalpha` on a character, for the character classes this
codebase sees: ASCII letters and Hangul syllables (digits, punctuation
and whitespace are non-alphabetic in both semantics). -/
def pyIsAlphaChar (c : Char) : Bool :=
  c.isAlpha || (0xAC00 ≤ c.toNat && c.toNat ≤ 0xD7A3)

/-- Python `str.isalpha`: nonempty and every character alphabetic. -/
def pyIsAlpha (s : String) : Bool :=
  !s.data.isEmpty && s.data.all pyIsAlphaChar

/-- Splitting a character list on whitespace, dropping empty tokens;
`acc` holds the characters of the current token in reverse. -/
def splitWSAux : List Char → List Char → List String
  | [], acc => if acc.isEmpty then [] else [String.mk acc.reverse]
  | c :: cs, acc =>
    if c.isWhitespace then
      if acc.isEmpty then splitWSAux cs [] else String.mk acc.reverse :: splitWSAux cs []
    else splitWSAux cs (c :: acc)

/-- Python `title.split()`: split on runs of whitespace, no empty tokens
(so the subsequent `word.strip()` in the source is the identity). -/
def splitTokens (title : String) : List String :=
  splitWSAux title.data []

/-- The tokens kept from one title (line 117 of the source):
`len(word) >= 2 and word.isalpha()`. -/
def pyTokens (title : String) : List String :=
  (splitTokens title).filter (fun w => decide (2 ≤ w.length) && pyIsAlpha w)

/-- The fixed stopword set (line 121). -/
def stopwords : List String :=
  ["있는", "있다", "하는", "그리고", "이번", "올해", "작년", "지난", "최근"]

/-- The accumulated `all_words` list (lines 114-118). -/
def allTitleWords (news_data : List NewsItem) : List String :=
  news_data.foldl (fun acc n => acc ++ pyTokens n.title) []

/-- `filtered_words` (line 122): stopwords removed. -/
def filteredWords (news_data : List NewsItem) : List String :=
  (allTitleWords news_data).filter (fun w => !stopwords.contains w)

/-- Stable insertion keeping earlier elements in front of later ones of
equal count (Python `sorted(..., reverse=True)` is stable). -/
def insertByCountDesc (p : String × ℕ) : List (String × ℕ) → List (String × ℕ)
  | [] => [p]
  | q :: qs => if q.2 > p.2 then q :: insertByCountDesc p qs else p :: q :: qs

/-- Stable sort by count, descending. -/
def sortByCountDesc (l : List (String × ℕ)) : List (String × ℕ) :=
  l.foldr insertByCountDesc []

/-- The items of the Python `Counter` in insertion (first occurrence)
order, with their counts. -/
def wordCounts (ws : List String) : List (String × ℕ) :=
  (dedupFirst ws).map (fun w => (w, ws.count w))

/-- `Counter(ws).most_common(n)` keys: the n most frequent words, ties
broken by first occurrence. -/
def mostCommon (n : ℕ) (ws : List String) : List String :=
  ((sortByCountDesc (wordCounts ws)).take n).map Prod.fst

/-- Count of items with positive sentiment (line 92). -/
def positiveCount (news_data : List NewsItem) : ℕ :=
  news_data.countP (fun n => decide (0 < n.sentiment_score))

/-- Count of items with negative sentiment (line 93). -/
def negativeCount (news_data : List NewsItem) : ℕ :=
  news_data.countP (fun n => decide (n.sentiment_score < 0))

/-- High-impact news entries (lines 102-110): impact at least 0.7,
first five. -/
def highImpactNews (news_data : List NewsItem) : List (String × ℚ × ℚ) :=
  ((news_data.filter (fun n => decide ((7:ℚ)/10 ≤ n.impact_score))).map
    (fun n => (n.title, n.sentiment_score, n.impact_score))).take 5

/-- The recent-versus-older sentiment comparison (lines 126-142).  The
Python split index `int(total_count * 0.4)` equals `(2 * count) / 5` in
integer arithmetic for every realistic count (the float product of a
positive integer below 2^50 with the binary double 0.4 truncates to the
same value). -/
def recentSentimentChange (news_data : List NewsItem) : String :=
  let k := 2 * news_data.length / 5
  let recent := news_data.take k
  let older := news_data.drop k
  if !recent.isEmpty && !older.isEmpty then
    let recent_avg := (recent.map (fun n => n.sentiment_score)).sum / recent.length
    let older_avg := (older.map (fun n => n.sentiment_score)).sum / older.length
    if recent_avg > older_avg + 1/10 then "개선"
    else if recent_avg < older_avg - 1/10 then "악화"
    else "불변"
  else "불변"

/-- The snapshot dictionary returned by `analyze_news_trend`. -/
structure NewsTrendSnapshot where
  total_count : ℕ
  positive_count : ℕ
  negative_count : ℕ
  neutral_count : ℕ
  positive_ratio : ℚ
  negative_ratio : ℚ
  avg_sentiment_score : ℚ
  avg_impact_score : ℚ
  high_impact_news : List (String × ℚ × ℚ)
  trending_keywords : List String
  recent_sentiment_change : String

/-- `analyze_news_trend` (lines 57-156). -/
def analyze_news_trend (news_data : List NewsItem) : NewsTrendSnapshot :=
  match news_data with
  | [] => ⟨0, 0, 0, 0, 0, 0, 0, 0, [], [], "불변"⟩
  | _ =>
    { total_count := news_data.length
      positive_count := positiveCount news_data
      negative_count := negativeCount news_data
      neutral_count := news_data.length - positiveCount news_data - negativeCount news_data
      positive_ratio := pyRound 1 ((positiveCount news_data : ℚ) / news_data.length * 100)
      negative_ratio := pyRound 1 ((negativeCount news_data : ℚ) / news_data.length * 100)
      avg_sentiment_score := pyRound 2 ((news_data.map (fun n => n.sentiment_score)).sum / news_data.length)
      avg_impact_score := pyRound 2 ((news_data.map (fun n => n.impact_score)).sum / news_data.length)
      high_impact_news := highImpactNews news_data
      trending_keywords := mostCommon 5 (filteredWords news_data)
      recent_sentiment_change := recentSentimentChange news_data }

theorem positive_add_negative_le (l : List NewsItem) :
    positiveCount l + negativeCount l ≤ l.length := by
  induction l with
  | nil => simp [positiveCount, negativeCount]
  | cons a t ih =>
    simp only [positiveCount, negativeCount, List.countP_cons, List.length_cons] at *
    by_cases hp : (0:ℚ) < a.sentiment_score
    · have hn : ¬ a.sentiment_score < 0 := fun hn => absurd (lt_trans hp hn) (lt_irrefl 0)
      simp only [hp, hn]
      simp
      omega
    · by_cases hn : a.sentiment_score < 0
      · simp only [hp, hn]
        simp
        omega
      · simp only [hp, hn]
        simp
        omega

/-- Claim C10: for every input list the snapshot counts partition the
input - positive + negative + neutral = total = input length (the counts
are naturals, hence nonnegative; positive counts sentiment above zero,
negative below zero, neutral is the remainder). -/
theorem news_snapshot_partition (news : List NewsItem) :
    (analyze_news_trend news).positive_count + (analyze_news_trend news).negative_count
      + (analyze_news_trend news).neutral_count = (analyze_news_trend news).total_count ∧
    (analyze_news_trend news).total_count = news.length := by
  match news with
  | [] => exact ⟨rfl, rfl⟩
  | a :: t =>
    have hle := positive_add_negative_le (a :: t)
    refine ⟨?_, rfl⟩
    show positiveCount (a :: t) + negativeCount (a :: t)
      + ((a :: t).length - positiveCount (a :: t) - negativeCount (a :: t)) = (a :: t).length
    omega

/-- The trending-keyword procedure exactly as the specification words
it: tokenize the titles on whitespace, drop tokens shorter than two
characters and stopword tokens, keep the five most frequent tokens,
each occurring at least twice. -/
def claimedTrendingKeywords (news_data : List NewsItem) : List String :=
  let ws := (news_data.foldl (fun acc n => acc ++ splitTokens n.title) []).filter
    (fun w => decide (2 ≤ w.length) && !stopwords.contains w)
  (mostCommon 5 ws).filter (fun w => decide (2 ≤ ws.count w))

/-- News item of the C9 counterexample. -/
def c9Item : NewsItem := ⟨"foo123 foo123 foo123 bar", 0, 0⟩

/-- Claim C9 (counterexample): the source also drops non-alphabetic
tokens (`word.isalpha()`) and applies no minimum-occurrence threshold,
so on a title whose only frequent token contains digits the code keeps
the once-occurring "bar" while the claimed procedure keeps "foo123". -/
theorem trending_keywords_counterexample :
    (analyze_news_trend [c9Item]).trending_keywords = ["bar"] ∧
    claimedTrendingKeywords [c9Item] = ["foo123"] ∧
    ¬ ((analyze_news_trend [c9Item]).trending_keywords = claimedTrendingKeywords [c9Item]) := by
  refine ⟨by decide, by decide, ?_⟩
  intro h
  rw [show (analyze_news_trend [c9Item]).trending_keywords = ["bar"] from by decide,
    show claimedTrendingKeywords [c9Item] = ["foo123"] from by decide] at h
  exact absurd h (by decide)

/-- The trending-keyword procedure as amended: tokens must additionally
be alphabetic, and the five most frequent survivors are kept with no
minimum occurrence count. -/
def amendedTrendingKeywords (news_data : List NewsItem) : List String :=
  mostCommon 5 ((news_data.flatMap (fun n => splitTokens n.title)).filter
    (fun w => decide (2 ≤ w.length) && pyIsAlpha w && !stopwords.contains w))

theorem foldl_append_tokens (l : List NewsItem) (acc : List String) :
    l.foldl (fun acc n => acc ++ pyTokens n.title) acc
      = acc ++ l.flatMap (fun n => pyTokens n.title) := by
  induction l generalizing acc with
  | nil => simp
  | cons a t ih => simp [ih, List.append_assoc]

theorem bind_filter_tokens (l : List NewsItem) (p : String → Bool) :
    (l.flatMap (fun n => (splitTokens n.title).filter p))
      = (l.flatMap (fun n => splitTokens n.title)).filter p := by
  induction l with
  | nil => simp
  | cons a t ih => simp [ih, List.filter_append]

/-- Claim C9 (amended): for every news list the trending keywords equal
the amended procedure's output. -/
theorem trending_keywords_amended (news : List NewsItem) :
    (analyze_news_trend news).trending_keywords = amendedTrendingKeywords news := by
  match news with
  | [] => rfl
  | a :: t =>
    show mostCommon 5 (filteredWords (a :: t)) = amendedTrendingKeywords (a :: t)
    unfold amendedTrendingKeywords
    congr 1
    rw [filteredWords, allTitleWords, foldl_append_tokens, List.nil_append]
    unfold pyTokens
    rw [bind_filter_tokens, List.filter_filter]
    apply List.filter_congr
    intro w _
    rw [Bool.and_comm]

end Jusic
